import Mathlib

/-!
Verification of the Gilgal deployment-orchestration core.

This file gives a shallow embedding of the deployment pipeline and container
lifecycle subsystem of the repository: the webhook signature gate
(`src/services/WebhookService.ts`, `src/routes/webhooks.ts`), the deployment
state machine (`src/services/DeploymentService.ts`), and the container
runtime (`DockerService`), together with theorems settling the frozen
claims about them.
-/

namespace Gilgal

/-! ## Bytes, UTF-8 and hex

`Buffer.from(string)` in Node encodes UTF-8; we embed strings as byte lists
through a standard UTF-8 encoder so byte lengths (which
`crypto.timingSafeEqual` compares) are faithful.
-/

/-- UTF-8 encoding of a single character (code point), as byte values. -/
def utf8EncChar (c : Char) : List Nat :=
  let n := c.toNat
  if n < 128 then [n]
  else if n < 2048 then [192 + n / 64, 128 + n % 64]
  else if n < 65536 then [224 + n / 4096, 128 + n / 64 % 64, 128 + n % 64]
  else [240 + n / 262144, 128 + n / 4096 % 64, 128 + n / 64 % 64, 128 + n % 64]

/-- The UTF-8 bytes of a string (the bytes `Buffer.from(s)` holds). -/
def strBytes (s : String) : List Nat :=
  s.data.flatMap utf8EncChar

/-- Lowercase hex digit for a nibble, as produced by Node's `digest('hex')`. -/
def hexDigit (n : Nat) : Char :=
  if n < 10 then Char.ofNat (48 + n) else Char.ofNat (87 + n)

/-- Lowercase hex rendering of a byte list (Node `Buffer.toString('hex')`). -/
def bytesHex (l : List Nat) : String :=
  String.mk (l.flatMap fun b => [hexDigit (b / 16 % 16), hexDigit (b % 16)])

/-! ## SHA-256 (FIPS 180-4), the hash underlying `crypto.createHmac('sha256', …)` -/

/-- Addition modulo 2^32. -/
def add32 (a b : Nat) : Nat := (a + b) % 4294967296

/-- Right rotation of a 32-bit word. -/
def rotr32 (n x : Nat) : Nat := ((x >>> n) ||| (x <<< (32 - n))) % 4294967296

/-- SHA-256 small sigma 0. -/
def ssig0 (x : Nat) : Nat := rotr32 7 x ^^^ rotr32 18 x ^^^ (x >>> 3)

/-- SHA-256 small sigma 1. -/
def ssig1 (x : Nat) : Nat := rotr32 17 x ^^^ rotr32 19 x ^^^ (x >>> 10)

/-- SHA-256 big sigma 0. -/
def bsig0 (x : Nat) : Nat := rotr32 2 x ^^^ rotr32 13 x ^^^ rotr32 22 x

/-- SHA-256 big sigma 1. -/
def bsig1 (x : Nat) : Nat := rotr32 6 x ^^^ rotr32 11 x ^^^ rotr32 25 x

/-- SHA-256 choose function. -/
def chf (x y z : Nat) : Nat := (x &&& y) ^^^ ((x ^^^ 4294967295) &&& z)

/-- SHA-256 majority function. -/
def majf (x y z : Nat) : Nat := (x &&& y) ^^^ (x &&& z) ^^^ (y &&& z)

/-- The 64 SHA-256 round constants, written in decimal. -/
def sha256K : List Nat :=
  [1116352408, 1899447441, 3049323471, 3921009573, 961987163,
   1508970993, 2453635748, 2870763221, 3624381080, 310598401,
   607225278, 1426881987, 1925078388, 2162078206, 2614888103,
   3248222580, 3835390401, 4022224774, 264347078, 604807628,
   770255983, 1249150122, 1555081692, 1996064986, 2554220882,
   2821834349, 2952996808, 3210313671, 3336571891, 3584528711,
   113926993, 338241895, 666307205, 773529912, 1294757372,
   1396182291, 1695183700, 1986661051, 2177026350, 2456956037,
   2730485921, 2820302411, 3259730800, 3345764771, 3516065817,
   3600352804, 4094571909, 275423344, 430227734, 506948616,
   659060556, 883997877, 958139571, 1322822218, 1537002063,
   1747873779, 1955562222, 2024104815, 2227730452, 2361852424,
   2428436474, 2756734187, 3204031479, 3329325298]

/-- The eight SHA-256 initial hash words. -/
structure Hash8 where
  a : Nat
  b : Nat
  c : Nat
  d : Nat
  e : Nat
  f : Nat
  g : Nat
  h : Nat

/-- SHA-256 initial state, written in decimal. -/
def sha256Init : Hash8 :=
  ⟨1779033703, 3144134277, 1013904242, 2773480762,
   1359893119, 2600822924, 528734635, 1541459225⟩

/-- One step of the message-schedule extension: append the next word. -/
def schedStep (ws : List Nat) : List Nat :=
  ws ++ [add32 (add32 (ssig1 (ws.getD (ws.length - 2) 0)) (ws.getD (ws.length - 7) 0))
              (add32 (ssig0 (ws.getD (ws.length - 15) 0)) (ws.getD (ws.length - 16) 0))]

/-- One SHA-256 compression round. -/
def sha256Round (st : Hash8) (k w : Nat) : Hash8 :=
  let t1 := add32 st.h (add32 (bsig1 st.e) (add32 (chf st.e st.f st.g) (add32 k w)))
  let t2 := add32 (bsig0 st.a) (majf st.a st.b st.c)
  ⟨add32 t1 t2, st.a, st.b, st.c, add32 st.d t1, st.e, st.f, st.g⟩

/-- Compress one 16-word block into the running hash. -/
def compressBlock (h0 : Hash8) (block : List Nat) : Hash8 :=
  let ws := schedStep^[48] block
  let fin := (sha256K.zip ws).foldl (fun st kw => sha256Round st kw.1 kw.2) h0
  ⟨add32 h0.a fin.a, add32 h0.b fin.b, add32 h0.c fin.c, add32 h0.d fin.d,
   add32 h0.e fin.e, add32 h0.f fin.f, add32 h0.g fin.g, add32 h0.h fin.h⟩

/-- Big-endian 4-byte rendering of a 32-bit word. -/
def wordBytes (w : Nat) : List Nat :=
  [w / 16777216 % 256, w / 65536 % 256, w / 256 % 256, w % 256]

/-- Big-endian 8-byte rendering of the 64-bit message bit length. -/
def lenBytes64 (n : Nat) : List Nat :=
  [n / 72057594037927936 % 256, n / 281474976710656 % 256,
   n / 1099511627776 % 256, n / 4294967296 % 256,
   n / 16777216 % 256, n / 65536 % 256, n / 256 % 256, n % 256]

/-- SHA-256 padding: append 0x80, zeros to 56 mod 64, then the bit length. -/
def sha256Pad (msg : List Nat) : List Nat :=
  msg ++ [128] ++ List.replicate ((119 - msg.length % 64) % 64) 0
      ++ lenBytes64 (msg.length * 8)

/-- Group bytes into big-endian 32-bit words. -/
def bytesToWords : List Nat → List Nat
  | b0 :: b1 :: b2 :: b3 :: rest => (((b0 * 256 + b1) * 256 + b2) * 256 + b3) :: bytesToWords rest
  | _ => []

/-- Split a list into chunks of `16` words, given the number of chunks. -/
def chunk16 : Nat → List Nat → List (List Nat)
  | 0, _ => []
  | n + 1, l => l.take 16 :: chunk16 n (l.drop 16)

/-- SHA-256 digest (32 bytes) of a byte list. -/
def sha256 (msg : List Nat) : List Nat :=
  let ws := bytesToWords (sha256Pad msg)
  let blocks := chunk16 (ws.length / 16) ws
  let fin := blocks.foldl compressBlock sha256Init
  wordBytes fin.a ++ wordBytes fin.b ++ wordBytes fin.c ++ wordBytes fin.d ++
  wordBytes fin.e ++ wordBytes fin.f ++ wordBytes fin.g ++ wordBytes fin.h

/-- HMAC-SHA256 (RFC 2104) over byte lists, as `crypto.createHmac('sha256', key)`. -/
def hmacSha256 (key msg : List Nat) : List Nat :=
  let k0 := if key.length > 64 then sha256 key ++ List.replicate 32 0
            else key ++ List.replicate (64 - key.length) 0
  let ipadKey := k0.map (· ^^^ 54)
  let opadKey := k0.map (· ^^^ 92)
  sha256 (opadKey ++ sha256 (ipadKey ++ msg))

/-! ## Webhook signature verification (`WebhookService.verifySignature`)

`crypto.timingSafeEqual` raises when the two buffers have different byte
lengths and otherwise returns their byte-for-byte equality.  The embedding
returns `.error ()` for the raised case and `.ok b` for the boolean result.
-/

/-- Embedding of `WebhookService.verifySignature(payload, signature, secret)`. -/
def verifySignature (payload signature secret : String) : Except Unit Bool :=
  let hash := "sha256=" ++ bytesHex (hmacSha256 (strBytes secret) (strBytes payload))
  if (strBytes hash).length = (strBytes signature).length then
    .ok (strBytes hash = strBytes signature)
  else
    .error ()

/-! ## Webhook push handling (`WebhookService.handlePushWebhook`) -/

/-- Deployment status values (`'pending' | 'building' | 'success' | 'failed'`
in `src/types/index.ts`, plus the `'cancelled'` literal written by
`cancelDeployment`). -/
inductive Status where
  | pending
  | building
  | success
  | failed
  | cancelled
deriving DecidableEq, Repr

/-- The fields of the GitHub push payload the service reads. -/
structure PushPayload where
  ref : Option String
  after : Option String
  pusherName : Option String
  senderLogin : Option String

/-- A non-deleted environment row `(id, name)` for the project. -/
structure EnvRow where
  id : String
  name : String
deriving DecidableEq, Repr

/-- The row inserted into `deployments` by the webhook path. -/
structure DeploymentInsert where
  id : String
  projectId : String
  environmentId : String
  status : Status
  commitSha : String
  commitMessage : String
deriving DecidableEq, Repr

/-- Side effects of the webhook path: rows inserted into `deployments`, and
the deployment ids on which `executeDeployment` is actually invoked. -/
structure PushEffects where
  inserted : List DeploymentInsert
  pipelineStarts : List String
deriving DecidableEq, Repr

/-- The object returned by `handlePushWebhook`. -/
structure PushResult where
  success : Bool
  deploymentId : Option String
  message : String
deriving DecidableEq, Repr

/-- JavaScript `a || b` on an optional string: an absent or empty string
falls through to the default. -/
def jsOrStr (a : Option String) (b : String) : String :=
  match a with
  | some s => if s = "" then b else s
  | none => b

/-- Split a character list at a separator; every separator starts a new
piece, so the result is always non-empty (JavaScript `String.split`). -/
def splitCharsAux (sep : Char) : List Char → List Char → List (List Char)
  | [], acc => [acc.reverse]
  | c :: cs, acc =>
    if c = sep then acc.reverse :: splitCharsAux sep cs []
    else splitCharsAux sep cs (c :: acc)

/-- JavaScript `s.split(sep)` for a single-character separator. -/
def jsSplit (sep : Char) (s : String) : List String :=
  (splitCharsAux sep s.data []).map String.mk

/-- Insert an environment row into a list sorted by name ascending. -/
def insertByName (e : EnvRow) : List EnvRow → List EnvRow
  | [] => [e]
  | x :: xs => if e.name ≤ x.name then e :: x :: xs else x :: insertByName e xs

/-- Sort environment rows by name ascending (`ORDER BY name ASC`). -/
def sortEnvs : List EnvRow → List EnvRow
  | [] => []
  | x :: xs => insertByName x (sortEnvs xs)

/-- Embedding of `WebhookService.handlePushWebhook(payload, projectId)`.

`projectFound` is the outcome of the project lookup and `envRows` the
project's non-deleted environment rows; `newId` is the fresh UUID.  The
`setImmediate` callback in the source only re-queries the inserted row and
logs that it is "ready for execution" — it never calls
`executeDeployment` (and `executeWebhookDeployment` has no caller), so the
returned `pipelineStarts` list is empty. -/
def handlePushWebhook (payload : PushPayload) (projectId : String)
    (projectFound : Bool) (envRows : List EnvRow) (newId : String) :
    PushResult × PushEffects :=
  if !projectFound then
    (⟨false, none, "Project not found"⟩, ⟨[], []⟩)
  else
    let ref := jsOrStr payload.ref ""
    let branch := jsOrStr (jsSplit '/' ref).getLast? "main"
    match (sortEnvs envRows).head? with
    | none => (⟨false, none, "No environment configured for this project"⟩, ⟨[], []⟩)
    | some env =>
      let commit := jsOrStr payload.after "unknown"
      let committer := jsOrStr payload.pusherName (jsOrStr payload.senderLogin "Unknown")
      let commitMessage := "Webhook deployment from " ++ committer ++ " on " ++ branch
      (⟨true, some newId, "Deployment triggered for " ++ branch ++ " branch"⟩,
       ⟨[⟨newId, projectId, env.id, .pending, commit, commitMessage⟩], []⟩)

/-! ## Webhook route (`POST /webhooks/github/:projectId` in `routes/webhooks.ts`) -/

/-- The responses the webhook route can send. -/
inductive WebhookResponse where
  | missingSignature
  | projectNotFound
  | webhookNotConfigured
  | invalidSignature
  | webhookFailed (message : String)
  | pushAccepted (deploymentId : Option String) (message : String)
  | pong
  | eventIgnored (eventType : String)
deriving DecidableEq, Repr

/-- Embedding of the `POST /webhooks/github/:projectId` handler.

`projectSecret` is the result of the `webhook_secret` lookup (`none` when
the project row is absent, `some none` when the column is NULL).  The
handler calls `verifySignature` inside `try { … } catch`, so it rejects
only when the call throws; the returned boolean is bound and discarded,
exactly as in the source. -/
def githubWebhookRoute (signature : Option String) (rawBody : String)
    (projectSecret : Option (Option String)) (eventType : String)
    (payload : PushPayload) (projectId : String) (pushProjectFound : Bool)
    (envRows : List EnvRow) (newId : String) : WebhookResponse × PushEffects :=
  match signature with
  | none => (.missingSignature, ⟨[], []⟩)
  | some sig =>
    match projectSecret with
    | none => (.projectNotFound, ⟨[], []⟩)
    | some none => (.webhookNotConfigured, ⟨[], []⟩)
    | some (some secret) =>
      match verifySignature rawBody sig secret with
      | .error _ => (.invalidSignature, ⟨[], []⟩)
      | .ok _verified =>
        if eventType = "push" then
          let re := handlePushWebhook payload projectId pushProjectFound envRows newId
          if !re.1.success then (.webhookFailed re.1.message, re.2)
          else (.pushAccepted re.1.deploymentId re.1.message, re.2)
        else if eventType = "ping" then (.pong, ⟨[], []⟩)
        else (.eventIgnored eventType, ⟨[], []⟩)

/-- The signature header value that matches `rawBody` under `secret`. -/
def correctSignature (secret rawBody : String) : String :=
  "sha256=" ++ bytesHex (hmacSha256 (strBytes secret) (strBytes rawBody))

/-! ## Deployment pipeline (`DeploymentService`)

`executeDeployment` is embedded as the sequence of database writes and
service invocations it performs; the writes are unguarded
`UPDATE deployments … WHERE id = $n` statements, so each applies whatever
the record's current status is.
-/

/-- The orchestrator-owned fields of a `deployments` row, plus its log
entries (level, message) in insertion order. -/
structure DeploymentRow where
  status : Status
  containerId : Option String
  containerPort : Option Nat
  durationSeconds : Option Nat
  deployedAt : Option Nat
  updatedAt : Option Nat
  errorMessage : Option String
  logs : List (String × String)
deriving DecidableEq, Repr

/-- The primitive operations the orchestrator performs against one
deployment: its `UPDATE` statements, `deployment_logs` inserts, and
markers for the build/run service invocations (which do not touch the
record). -/
inductive DbOp where
  | setBuilding
  | invokeBuild
  | invokeRun
  | setSuccess (containerId : String) (port duration time : Nat)
  | setFailed (message : String) (duration time : Nat)
  | setCancelled (time : Nat)
  | addLog (level message : String)
  | dockerStop (containerId : String)
deriving DecidableEq, Repr

/-- Effect of one operation on the record.  `setSuccess`/`setFailed`/
`setCancelled` mirror the columns each `UPDATE` statement sets. -/
def applyOp (r : DeploymentRow) : DbOp → DeploymentRow
  | .setBuilding => { r with status := .building }
  | .invokeBuild => r
  | .invokeRun => r
  | .setSuccess cid port dur t =>
      { r with status := .success, containerId := some cid, containerPort := some port,
               durationSeconds := some dur, deployedAt := some t, updatedAt := some t }
  | .setFailed msg dur t =>
      { r with status := .failed, errorMessage := some msg, durationSeconds := some dur,
               updatedAt := some t }
  | .setCancelled t => { r with status := .cancelled, updatedAt := some t }
  | .addLog lvl msg => { r with logs := r.logs ++ [(lvl, msg)] }
  | .dockerStop _ => r

/-- Run a list of operations left to right. -/
def runOps (r : DeploymentRow) (ops : List DbOp) : DeploymentRow :=
  ops.foldl applyOp r

/-- All intermediate records while running a list of operations. -/
def rowTrace (r : DeploymentRow) : List DbOp → List DeploymentRow
  | [] => [r]
  | op :: ops => r :: rowTrace (applyOp r op) ops

/-- The record as created by `createDeployment` or the webhook insert:
status pending, pipeline-owned fields unset, no logs. -/
def initialRow : DeploymentRow :=
  ⟨.pending, none, none, none, none, none, none, []⟩

/-- Embedding of `DeploymentService.executeDeployment` as its operation
sequence.  `buildResult` is the outcome of `DockerService.buildImage`
(`.ok (imageName, framework)` or the thrown error message), `runResult`
the outcome of `DockerService.runContainer` (`.ok (containerId, port)`),
`nginxOk` whether `NginxConfigService.applyNginxConfig()` succeeds;
`durOk`/`tOk` are the duration and timestamp at the success update,
`durFail`/`tFail` those computed in the catch handler. -/
def executeDeploymentOps (buildResult : Except String (String × String))
    (runResult : Except String (String × Nat)) (nginxOk : Bool)
    (durOk tOk durFail tFail : Nat) : List DbOp :=
  [.setBuilding, .addLog "info" "Starting deployment pipeline...",
   .addLog "info" "Building Docker image...", .invokeBuild] ++
  match buildResult with
  | .error e => [.setFailed e durFail tFail, .addLog "error" ("Deployment failed: " ++ e)]
  | .ok (imageName, _framework) =>
    [.addLog "info" ("Docker image built: " ++ imageName),
     .addLog "info" "Starting container...", .invokeRun] ++
    match runResult with
    | .error e => [.setFailed e durFail tFail, .addLog "error" ("Deployment failed: " ++ e)]
    | .ok (cid, port) =>
      [.addLog "info" ("Container running on port " ++ toString port),
       .setSuccess cid port durOk tOk,
       .addLog "info" ("Deployment completed successfully in " ++ toString durOk ++ "s"),
       .addLog "info" "Updating nginx configuration..."] ++
      if nginxOk then
        [.addLog "info" "Nginx configuration updated - app now accessible at subdomain"]
      else
        [.addLog "warn"
          "Deployment successful but nginx config update failed (may require manual setup)"]

/-- Number of `invokeBuild` markers in an operation list. -/
def countInvokeBuild : List DbOp → Nat
  | [] => 0
  | .invokeBuild :: ops => countInvokeBuild ops + 1
  | _ :: ops => countInvokeBuild ops

/-- Number of `invokeRun` markers in an operation list. -/
def countInvokeRun : List DbOp → Nat
  | [] => 0
  | .invokeRun :: ops => countInvokeRun ops + 1
  | _ :: ops => countInvokeRun ops

/-- Error taxonomy of `ApiError` as thrown by the deployment service. -/
inductive ApiErr where
  | validation (message : String)
  | notFound (message : String)
deriving DecidableEq, Repr

/-- Container-runtime effects a service call can request. -/
inductive DockerEffect where
  | stop (containerId : String)
  | start (containerId : String)
deriving DecidableEq, Repr

/-- Embedding of `DeploymentService.cancelDeployment` acting on the fetched
record `r` at time `t`: rejects with a validation error when the status is
neither pending nor building (leaving the record untouched); otherwise
best-effort stops any recorded container, sets the status to cancelled and
appends the log entry.  Returns the thrown error or unit, the record
afterwards, and the docker effects requested. -/
def cancelDeployment (r : DeploymentRow) (t : Nat) :
    Except ApiErr Unit × DeploymentRow × List DockerEffect :=
  if r.status ≠ .pending ∧ r.status ≠ .building then
    (.error (.validation "Cannot cancel completed deployment"), r, [])
  else
    (.ok (),
     { r with status := .cancelled, updatedAt := some t,
              logs := r.logs ++ [("info", "Deployment cancelled by user")] },
     match r.containerId with
     | some c => [DockerEffect.stop c]
     | none => [])

/-! ## Interleaving of the pipeline with a cancel request (claim C2) -/

/-- A configuration: the pipeline's remaining operations, whether the
single cancel request has already run, and the current record. -/
structure Config where
  rest : List DbOp
  cancelDone : Bool
  row : DeploymentRow

/-- One system step: the pipeline applies its next operation, or the cancel
request runs `cancelDeployment` against the current record (accepted or
rejected according to the status it reads). -/
inductive SysStep : Config → Config → Prop where
  | pipe (op : DbOp) (rest : List DbOp) (c : Bool) (r : DeploymentRow) :
      SysStep ⟨op :: rest, c, r⟩ ⟨rest, c, applyOp r op⟩
  | cancel (rest : List DbOp) (r : DeploymentRow) (t : Nat) :
      SysStep ⟨rest, false, r⟩ ⟨rest, true, (cancelDeployment r t).2.1⟩

/-- The status advances the spec's invariant allows. -/
def legalAdvance : Status → Status → Bool
  | .pending, .building => true
  | .building, .success => true
  | .building, .failed => true
  | .pending, .cancelled => true
  | .building, .cancelled => true
  | _, _ => false

/-- Terminal statuses. -/
def terminalB : Status → Bool
  | .success => true
  | .failed => true
  | .cancelled => true
  | _ => false

/-- Equality of all record fields other than the logs. -/
def sameCore (r r' : DeploymentRow) : Prop :=
  r'.status = r.status ∧ r'.containerId = r.containerId ∧
  r'.containerPort = r.containerPort ∧ r'.durationSeconds = r.durationSeconds ∧
  r'.deployedAt = r.deployedAt ∧ r'.updatedAt = r.updatedAt ∧
  r'.errorMessage = r.errorMessage

/-- One observed step is legal: the status stays or advances legally, and a
record that is already terminal changes only by appending log entries. -/
def seqStepOk (r r' : DeploymentRow) : Prop :=
  (r'.status = r.status ∨ legalAdvance r.status r'.status = true) ∧
  (terminalB r.status = true → sameCore r r' ∧ ∃ new, r'.logs = r.logs ++ new)

/-- Every pair of consecutive records satisfies `seqStepOk`. -/
def ChainOk : List DeploymentRow → Prop
  | [] => True
  | [_] => True
  | r :: r' :: rest => seqStepOk r r' ∧ ChainOk (r' :: rest)

/-! ## Rollback (`DeploymentService.rollbackDeployment`) -/

/-- A stored `deployments` row as the rollback queries see it. -/
structure StoredDeployment where
  id : String
  projectId : String
  environmentId : String
  status : Status
  containerId : Option String
  createdAt : Nat
deriving DecidableEq, Repr

/-- A `projects` row: id and owning user. -/
structure ProjectRow where
  id : String
  userId : String
deriving DecidableEq, Repr

/-- Embedding of `DeploymentService.getDeployment`: the row with the given
id whose joined project belongs to the requesting user. -/
def getDeployment (projects : List ProjectRow) (deps : List StoredDeployment)
    (deploymentId userId : String) : Option StoredDeployment :=
  deps.find? fun d =>
    d.id == deploymentId && projects.any fun p => p.id == d.projectId && p.userId == userId

/-- SQL equality of a text column against a possibly-NULL parameter:
three-valued logic — a comparison with NULL never holds. -/
def sqlEqStr (col : String) (param : Option String) : Bool :=
  match param with
  | some s => col == s
  | none => false

/-- SQL `<` of an integer/timestamp column against a possibly-NULL
parameter: a comparison with NULL never holds. -/
def sqlLtNat (col : Nat) (param : Option Nat) : Bool :=
  match param with
  | some n => col < n
  | none => false

/-- The prev-deployment query's WHERE clause
(`project_id = $1 AND environment_id = $2 AND status = $3 AND created_at < $4`)
with whatever parameters the caller binds, NULL allowed. -/
def matchesPrevParams (projectId environmentId : Option String) (createdAt : Option Nat)
    (d : StoredDeployment) : Bool :=
  sqlEqStr d.projectId projectId && sqlEqStr d.environmentId environmentId &&
  d.status == Status.success && sqlLtNat d.createdAt createdAt

/-- The WHERE clause with the current row's actual project, environment and
creation time — the parameters the spec intends the query to receive. -/
def matchesPrev (cur d : StoredDeployment) : Bool :=
  matchesPrevParams (some cur.projectId) (some cur.environmentId) (some cur.createdAt) d

/-- Keep the later-created of two candidates (first wins ties, matching the
unspecified tie order of `ORDER BY created_at DESC LIMIT 1`). -/
def pickLater (acc : Option StoredDeployment) (d : StoredDeployment) :
    Option StoredDeployment :=
  match acc with
  | none => some d
  | some b => if b.createdAt < d.createdAt then some d else some b

/-- The row `ORDER BY created_at DESC LIMIT 1` returns among those matching
the WHERE clause with the given parameters. -/
def latestPrev (projectId environmentId : Option String) (createdAt : Option Nat)
    (deps : List StoredDeployment) : Option StoredDeployment :=
  (deps.filter (matchesPrevParams projectId environmentId createdAt)).foldl pickLater none

/-- Reading `currentDeployment.projectId` in the source: the pg row's key is
the SQL column name `project_id` (the query wrapper returns `result.rows`
unmapped and this SELECT uses no aliases), so the read yields `undefined`,
which node-postgres binds as NULL. -/
def rowProjectId (_row : StoredDeployment) : Option String := none

/-- Reading `currentDeployment.environmentId` (row key `environment_id`):
`undefined`, bound as NULL. -/
def rowEnvironmentId (_row : StoredDeployment) : Option String := none

/-- Reading `currentDeployment.createdAt` (row key `created_at`):
`undefined`, bound as NULL. -/
def rowCreatedAt (_row : StoredDeployment) : Option Nat := none

/-- Reading `currentDeployment.containerId` (row key `container_id`):
`undefined`, so the stop branch is never taken. -/
def rowContainerId (_row : StoredDeployment) : Option String := none

/-- Embedding of `DeploymentService.rollbackDeployment`: fetches the current
deployment, then queries the most recent earlier successful deployment of
the same project and environment — but the source binds
`currentDeployment.projectId`, `.environmentId` and `.createdAt`, which are
`undefined` on the snake_case pg row and therefore NULL in the query, and
likewise reads `.containerId` for the stop.  The result carries the thrown
error or the returned record, the docker effects requested, and the
`deployment_logs` rows inserted. -/
def rollbackDeployment (projects : List ProjectRow) (deps : List StoredDeployment)
    (deploymentId userId : String) :
    Except ApiErr StoredDeployment × List DockerEffect × List (String × String × String) :=
  match getDeployment projects deps deploymentId userId with
  | none => (.error (.notFound "Deployment not found"), [], [])
  | some cur =>
    match latestPrev (rowProjectId cur) (rowEnvironmentId cur) (rowCreatedAt cur) deps with
    | none => (.error (.validation "No previous successful deployment found"), [], [])
    | some prev =>
      (.ok prev,
       (match rowContainerId cur with
        | some c => [DockerEffect.stop c]
        | none => []),
       [(deploymentId, "info", "Rolling back to deployment " ++ prev.id)])

/-! ## Container environment (`DockerService.runContainer`) -/

/-- The `Env` array `runContainer` passes to the container create call: the
supplied variables rendered `KEY=value` in order, after which the fixed
runtime marker `NODE_ENV=production` is pushed. -/
def containerEnv (envVariables : List (String × String)) : List String :=
  envVariables.map (fun kv => kv.1 ++ "=" ++ kv.2) ++ ["NODE_ENV=production"]

/-- Parse one `KEY=value` entry at its first '='. -/
def parseEnvEntry (s : String) : String × String :=
  (String.mk (s.data.takeWhile (· ≠ '=')),
   String.mk ((s.data.dropWhile (· ≠ '=')).drop 1))

/-- The value a container process observes for `key`: the runtime applies
the entries in order, so the last entry naming the key wins. -/
def effectiveEnv (env : List String) (key : String) : Option String :=
  (env.reverse.find? fun e => (parseEnvEntry e).1 == key).map fun e => (parseEnvEntry e).2

/-! ## Container stop (`DockerService.stopContainer`) -/

/-- A container's inspect result: its running flag (`State.Running`). -/
structure ContainerInfo where
  running : Bool
deriving DecidableEq, Repr

/-- The runtime's state: the containers that exist, keyed by reference. -/
def inspectContainer (world : List (String × ContainerInfo)) (ref : String) :
    Option ContainerInfo :=
  (world.find? fun kv => kv.1 == ref).map fun kv => kv.2

/-- Mark a container as stopped (the effect of `container.stop`). -/
def markStopped (world : List (String × ContainerInfo)) (ref : String) :
    List (String × ContainerInfo) :=
  world.map fun kv => if kv.1 == ref then (kv.1, ⟨false⟩) else kv

/-- Remove a container (the effect of `container.remove`); removing an
absent container changes nothing (the thrown error is caught). -/
def removeContainer (world : List (String × ContainerInfo)) (ref : String) :
    List (String × ContainerInfo) :=
  world.filter fun kv => kv.1 != ref

/-- Embedding of `DockerService.stopContainer`: inspect first (absence is
caught), stop with a bounded grace period only if running (errors caught),
then attempt removal (errors caught).  The boolean reports whether the call
returned without throwing — which it always does. -/
def stopContainer (world : List (String × ContainerInfo)) (ref : String) :
    List (String × ContainerInfo) × Bool :=
  let afterStop :=
    match inspectContainer world ref with
    | some info => if info.running then markStopped world ref else world
    | none => world
  (removeContainer afterStop ref, true)

/-! ## Theorems -/

/-- SHA-256 of the empty message matches the FIPS test vector. -/
theorem sha256_empty_vector :
    bytesHex (sha256 []) =
      "e3b0c44298fc1c149afbf4c8996fb92427ae41e4649b934ca495991b7852b855" := by
  decide

set_option maxRecDepth 10000 in
/-- HMAC-SHA256 of the classic key/message pair matches the published vector. -/
theorem hmacSha256_vector :
    bytesHex (hmacSha256 (strBytes "key")
        (strBytes "The quick brown fox jumps over the lazy dog")) =
      "f7bc83f430538424b13298e6aa6fb143ef4d59a14946175997479dbc2d1a3cd8" := by
  decide

set_option maxRecDepth 100000 in
/-- C1: the spec requires that a push request is accepted only when the
signature header equals the HMAC-SHA256 of the raw payload under the
project's secret.  The route discards `verifySignature`'s boolean result
and rejects only when the comparison throws on a byte-length mismatch, so
a same-length forged signature ("sha256=" followed by 64 'z' characters,
which cannot be a hex digest) is accepted: the push is handled and a
pending deployment row is inserted. -/
theorem C1_signature_gate_bypassed :
    "sha256=zzzzzzzzzzzzzzzzzzzzzzzzzzzzzzzzzzzzzzzzzzzzzzzzzzzzzzzzzzzzzzzz" ≠
      correctSignature "topsecret" "{}" ∧
    githubWebhookRoute
        (some "sha256=zzzzzzzzzzzzzzzzzzzzzzzzzzzzzzzzzzzzzzzzzzzzzzzzzzzzzzzzzzzzzzzz")
        "{}" (some (some "topsecret")) "push"
        ⟨some "refs/heads/main", some "abc123", some "alice", none⟩
        "p1" true [⟨"e1", "production"⟩] "d1" =
      (.pushAccepted (some "d1") "Deployment triggered for main branch",
       ⟨[⟨"d1", "p1", "e1", .pending, "abc123",
          "Webhook deployment from alice on main"⟩], []⟩) := by
  constructor
  · decide
  · decide

set_option maxRecDepth 100000 in
/-- C3: the spec requires that an authenticated push that resolves a
project and environment creates a `pending` deployment and actually starts
the Orchestrator's pipeline on it.  Evaluating the route on a correctly
signed push shows the `pending` row is inserted but the set of pipeline
invocations is empty: neither the `setImmediate` callback nor the route
ever calls `executeDeployment` (and `executeWebhookDeployment` is never
invoked anywhere), so the deployment is created and left unexecuted. -/
theorem C3_pipeline_never_started :
    githubWebhookRoute (some (correctSignature "topsecret" "{}"))
        "{}" (some (some "topsecret")) "push"
        ⟨some "refs/heads/main", some "abc123", some "alice", none⟩
        "p1" true [⟨"e1", "production"⟩] "d1" =
      (.pushAccepted (some "d1") "Deployment triggered for main branch",
       ⟨[⟨"d1", "p1", "e1", .pending, "abc123",
          "Webhook deployment from alice on main"⟩], []⟩) ∧
    (githubWebhookRoute (some (correctSignature "topsecret" "{}"))
        "{}" (some (some "topsecret")) "push"
        ⟨some "refs/heads/main", some "abc123", some "alice", none⟩
        "p1" true [⟨"e1", "production"⟩] "d1").2.pipelineStarts = [] := by
  constructor
  · decide
  · decide

/-- The pipeline can always execute a prefix of its remaining operations. -/
theorem pipeSteps (done : List DbOp) : ∀ (ops : List DbOp) (c : Bool) (r : DeploymentRow),
    Relation.ReflTransGen SysStep ⟨done ++ ops, c, r⟩ ⟨ops, c, runOps r done⟩ := by
  induction done with
  | nil => intro ops c r; exact Relation.ReflTransGen.refl
  | cons op rest ih =>
    intro ops c r
    exact Relation.ReflTransGen.head (SysStep.pipe op (rest ++ ops) c r) (ih ops c (applyOp r op))

/-- C2 (counterexample): the claim states that no transition other than
pending→building→{success|failed} and pending/building→cancelled ever
occurs.  The pipeline's success `UPDATE` is not guarded by the current
status, so when `cancelDeployment` runs while the pipeline is between its
container-start step and its success update (a legal moment: the status it
reads is `building`), the subsequent success update moves the record from
`cancelled` to `success`. -/
theorem C2_counterexample_cancelled_to_success :
    ¬ (∀ c c' : Config,
        Relation.ReflTransGen SysStep
          ⟨executeDeploymentOps (.ok ("img", "node")) (.ok ("c1", 8123)) true 5 100 5 100,
           false, initialRow⟩ c →
        SysStep c c' →
        (c'.row.status = c.row.status ∨ legalAdvance c.row.status c'.row.status = true)) := by
  intro h
  have reach1 :
      Relation.ReflTransGen SysStep
        ⟨executeDeploymentOps (.ok ("img", "node")) (.ok ("c1", 8123)) true 5 100 5 100,
         false, initialRow⟩
        ⟨[DbOp.setSuccess "c1" 8123 5 100,
          .addLog "info" "Deployment completed successfully in 5s",
          .addLog "info" "Updating nginx configuration...",
          .addLog "info" "Nginx configuration updated - app now accessible at subdomain"],
         false,
         runOps initialRow
           [DbOp.setBuilding, .addLog "info" "Starting deployment pipeline...",
            .addLog "info" "Building Docker image...", .invokeBuild,
            .addLog "info" "Docker image built: img", .addLog "info" "Starting container...",
            .invokeRun, .addLog "info" "Container running on port 8123"]⟩ :=
    pipeSteps
      [DbOp.setBuilding, .addLog "info" "Starting deployment pipeline...",
       .addLog "info" "Building Docker image...", .invokeBuild,
       .addLog "info" "Docker image built: img", .addLog "info" "Starting container...",
       .invokeRun, .addLog "info" "Container running on port 8123"]
      [DbOp.setSuccess "c1" 8123 5 100,
       .addLog "info" "Deployment completed successfully in 5s",
       .addLog "info" "Updating nginx configuration...",
       .addLog "info" "Nginx configuration updated - app now accessible at subdomain"]
      false initialRow
  have reach2 := Relation.ReflTransGen.tail reach1
    (SysStep.cancel _
      (runOps initialRow
        [DbOp.setBuilding, .addLog "info" "Starting deployment pipeline...",
         .addLog "info" "Building Docker image...", .invokeBuild,
         .addLog "info" "Docker image built: img", .addLog "info" "Starting container...",
         .invokeRun, .addLog "info" "Container running on port 8123"]) 50)
  have bad := h _ _ reach2
    (SysStep.pipe (DbOp.setSuccess "c1" 8123 5 100)
      [.addLog "info" "Deployment completed successfully in 5s",
       .addLog "info" "Updating nginx configuration...",
       .addLog "info" "Nginx configuration updated - app now accessible at subdomain"]
      true
      ((cancelDeployment
          (runOps initialRow
            [DbOp.setBuilding, .addLog "info" "Starting deployment pipeline...",
             .addLog "info" "Building Docker image...", .invokeBuild,
             .addLog "info" "Docker image built: img", .addLog "info" "Starting container...",
             .invokeRun, .addLog "info" "Container running on port 8123"]) 50).2.1))
  exact absurd bad (by decide)

/-- C2 (amended): with no concurrent cancel, the pipeline's observed record
sequence only advances pending→building→{success|failed} and changes
nothing but logs once terminal; `cancelDeployment` moves a pending or
building record to cancelled and rejects a terminal record unchanged.  (The
unguarded pipeline updates still overwrite an interleaved cancellation, as
the counterexample shows.) -/
theorem C2_amended_transitions :
    (∀ (buildResult : Except String (String × String))
       (runResult : Except String (String × Nat)) (nginxOk : Bool)
       (durOk tOk durFail tFail : Nat),
       ChainOk (rowTrace initialRow
         (executeDeploymentOps buildResult runResult nginxOk durOk tOk durFail tFail))) ∧
    (∀ (r : DeploymentRow) (t : Nat),
       (r.status = .pending ∨ r.status = .building) →
         (cancelDeployment r t).1 = .ok () ∧
         (cancelDeployment r t).2.1.status = .cancelled ∧
         (cancelDeployment r t).2.1.logs = r.logs ++ [("info", "Deployment cancelled by user")]) ∧
    (∀ (r : DeploymentRow) (t : Nat),
       terminalB r.status = true →
         cancelDeployment r t = (.error (.validation "Cannot cancel completed deployment"), r, [])) := by
  refine ⟨?_, ?_, ?_⟩
  · intro buildResult runResult nginxOk durOk tOk durFail tFail
    rcases buildResult with e | ⟨imageName, framework⟩
    · simp [executeDeploymentOps, rowTrace, applyOp, ChainOk, seqStepOk, sameCore,
            legalAdvance, terminalB, initialRow]
    · rcases runResult with e | ⟨cid, port⟩
      · simp [executeDeploymentOps, rowTrace, applyOp, ChainOk, seqStepOk, sameCore,
              legalAdvance, terminalB, initialRow]
      · cases nginxOk <;>
          simp [executeDeploymentOps, rowTrace, applyOp, ChainOk, seqStepOk, sameCore,
                legalAdvance, terminalB, initialRow]
  · intro r t h
    rcases h with h | h <;> simp [cancelDeployment, h]
  · intro r t h
    rcases r with ⟨s, cid, port, dur, dep, upd, err, logs⟩
    cases s <;> simp_all [cancelDeployment, terminalB]

/-- Witness for C2 (amended) at concrete inputs. -/
theorem C2_amended_witness :
    ChainOk (rowTrace initialRow
      (executeDeploymentOps (.error "boom") (.error "x") true 1 2 3 4)) ∧
    (cancelDeployment ⟨.building, some "c9", none, none, none, none, none, []⟩ 7).2.1.status =
      .cancelled ∧
    cancelDeployment ⟨.success, none, none, some 3, none, none, none, []⟩ 7 =
      (.error (.validation "Cannot cancel completed deployment"),
       ⟨.success, none, none, some 3, none, none, none, []⟩, []) :=
  ⟨C2_amended_transitions.1 (.error "boom") (.error "x") true 1 2 3 4,
   ((C2_amended_transitions.2.1 ⟨.building, some "c9", none, none, none, none, none, []⟩ 7
      (Or.inr rfl)).2).1,
   C2_amended_transitions.2.2 ⟨.success, none, none, some 3, none, none, none, []⟩ 7 (by decide)⟩

/-- C4: every build-step or run-step failure is captured by the pipeline's
handler rather than re-raised: the record ends `failed` with the thrown
message as `errorMessage`, the elapsed duration recorded, and an
error-level log entry appended; the build and run services are invoked at
most once (no retry). -/
theorem C4_pipeline_errors_captured :
    ∀ (e imageName framework : String)
      (runResult : Except String (String × Nat)) (nginxOk : Bool)
      (durOk tOk durFail tFail : Nat),
      runOps initialRow
          (executeDeploymentOps (.error e) runResult nginxOk durOk tOk durFail tFail) =
        ⟨.failed, none, none, some durFail, none, some tFail, some e,
         [("info", "Starting deployment pipeline..."),
          ("info", "Building Docker image..."),
          ("error", "Deployment failed: " ++ e)]⟩ ∧
      runOps initialRow
          (executeDeploymentOps (.ok (imageName, framework)) (.error e) nginxOk
            durOk tOk durFail tFail) =
        ⟨.failed, none, none, some durFail, none, some tFail, some e,
         [("info", "Starting deployment pipeline..."),
          ("info", "Building Docker image..."),
          ("info", "Docker image built: " ++ imageName),
          ("info", "Starting container..."),
          ("error", "Deployment failed: " ++ e)]⟩ ∧
      countInvokeBuild
          (executeDeploymentOps (.error e) runResult nginxOk durOk tOk durFail tFail) = 1 ∧
      countInvokeRun
          (executeDeploymentOps (.error e) runResult nginxOk durOk tOk durFail tFail) = 0 ∧
      countInvokeBuild
          (executeDeploymentOps (.ok (imageName, framework)) (.error e) nginxOk
            durOk tOk durFail tFail) = 1 ∧
      countInvokeRun
          (executeDeploymentOps (.ok (imageName, framework)) (.error e) nginxOk
            durOk tOk durFail tFail) = 1 := by
  intro e imageName framework runResult nginxOk durOk tOk durFail tFail
  refine ⟨?_, ?_, ?_, ?_, ?_, ?_⟩ <;>
    simp [executeDeploymentOps, runOps, applyOp, initialRow, countInvokeBuild, countInvokeRun]

/-- C7: when build and run succeed, a failure of the nginx reconfiguration
leaves every field of the record exactly as the success update wrote it —
the only difference from a successful reconfiguration is the final log
entry, which is warning-level instead of info-level. -/
theorem C7_nginx_failure_nonfatal :
    ∀ (imageName framework cid : String) (port durOk tOk durFail tFail : Nat),
      runOps initialRow
          (executeDeploymentOps (.ok (imageName, framework)) (.ok (cid, port)) false
            durOk tOk durFail tFail) =
        ⟨.success, some cid, some port, some durOk, some tOk, some tOk, none,
         [("info", "Starting deployment pipeline..."),
          ("info", "Building Docker image..."),
          ("info", "Docker image built: " ++ imageName),
          ("info", "Starting container..."),
          ("info", "Container running on port " ++ toString port),
          ("info", "Deployment completed successfully in " ++ toString durOk ++ "s"),
          ("info", "Updating nginx configuration..."),
          ("warn",
           "Deployment successful but nginx config update failed (may require manual setup)")]⟩ ∧
      runOps initialRow
          (executeDeploymentOps (.ok (imageName, framework)) (.ok (cid, port)) true
            durOk tOk durFail tFail) =
        ⟨.success, some cid, some port, some durOk, some tOk, some tOk, none,
         [("info", "Starting deployment pipeline..."),
          ("info", "Building Docker image..."),
          ("info", "Docker image built: " ++ imageName),
          ("info", "Starting container..."),
          ("info", "Container running on port " ++ toString port),
          ("info", "Deployment completed successfully in " ++ toString durOk ++ "s"),
          ("info", "Updating nginx configuration..."),
          ("info", "Nginx configuration updated - app now accessible at subdomain")]⟩ := by
  intro imageName framework cid port durOk tOk durFail tFail
  exact ⟨rfl, rfl⟩

/-- C5: the spec says rollback locates and returns the most recent earlier
successful deployment of the same (project, environment) pair.  The source
binds `currentDeployment.projectId`, `.environmentId` and `.createdAt` as
the query parameters, but those camelCase properties do not exist on the
snake_case pg row, so all three are `undefined`, bound as NULL, and the
`col = NULL` / `created_at < NULL` comparisons match no row: whenever the
current deployment resolves, rollback throws the validation error and
requests no container stop — even at the concrete input where an earlier
successful deployment (`d1`) satisfies the intended WHERE clause. -/
theorem C5_rollback_always_throws :
    (∀ (projects : List ProjectRow) (deps : List StoredDeployment)
       (deploymentId userId : String) (cur : StoredDeployment),
       getDeployment projects deps deploymentId userId = some cur →
       rollbackDeployment projects deps deploymentId userId =
         (.error (.validation "No previous successful deployment found"), [], [])) ∧
    (matchesPrev (⟨"d2", "p1", "e1", .failed, some "c2", 10⟩ : StoredDeployment)
       (⟨"d1", "p1", "e1", .success, some "c1", 5⟩ : StoredDeployment) = true ∧
     rollbackDeployment [⟨"p1", "u1"⟩]
         [⟨"d2", "p1", "e1", .failed, some "c2", 10⟩,
          ⟨"d1", "p1", "e1", .success, some "c1", 5⟩] "d2" "u1" =
       (.error (.validation "No previous successful deployment found"), [], [])) := by
  constructor
  · intro projects deps deploymentId userId cur hcur
    have hlp : latestPrev (rowProjectId cur) (rowEnvironmentId cur) (rowCreatedAt cur)
        deps = none := by
      unfold latestPrev
      rw [List.filter_eq_nil_iff.mpr fun a ha => by
        simp [matchesPrevParams, sqlEqStr, rowProjectId, rowEnvironmentId, rowCreatedAt]]
      rfl
    simp only [rollbackDeployment, hcur, hlp]
  · exact ⟨rfl, rfl⟩

/-- Witness for C5 at a concrete input with a prior success present. -/
theorem C5_rollback_throws_witness :
    rollbackDeployment [⟨"p1", "u1"⟩]
        [⟨"d2", "p1", "e1", .failed, some "c2", 10⟩,
         ⟨"d1", "p1", "e1", .success, some "c1", 5⟩] "d2" "u1" =
      (.error (.validation "No previous successful deployment found"), [], []) :=
  C5_rollback_always_throws.1 [⟨"p1", "u1"⟩]
    [⟨"d2", "p1", "e1", .failed, some "c2", 10⟩,
     ⟨"d1", "p1", "e1", .success, some "c1", 5⟩] "d2" "u1"
    ⟨"d2", "p1", "e1", .failed, some "c2", 10⟩ rfl

/-- C6: cancellation succeeds exactly while the status is pending or
building, in which case it sets the status to cancelled, appends the log
entry, and requests at most a stop of the recorded container; on a record
in any other (terminal) status it throws the validation error and changes
nothing. -/
theorem C6_cancel_guard :
    ∀ (r : DeploymentRow) (t : Nat),
      ((cancelDeployment r t).1 = .ok () ↔ (r.status = .pending ∨ r.status = .building)) ∧
      ((r.status = .pending ∨ r.status = .building) →
        (cancelDeployment r t).2.1 =
          { r with status := .cancelled, updatedAt := some t,
                   logs := r.logs ++ [("info", "Deployment cancelled by user")] } ∧
        (∀ eff ∈ (cancelDeployment r t).2.2,
          ∃ c, eff = DockerEffect.stop c ∧ r.containerId = some c)) ∧
      ((r.status ≠ .pending ∧ r.status ≠ .building) →
        cancelDeployment r t = (.error (.validation "Cannot cancel completed deployment"), r, [])) := by
  intro r t
  rcases r with ⟨s, cid, port, dur, dep, upd, err, logs⟩
  refine ⟨?_, ?_, ?_⟩
  · cases s <;> simp [cancelDeployment]
  · rintro (rfl | rfl) <;>
    · refine ⟨by simp [cancelDeployment], ?_⟩
      rcases cid with _ | c
      · intro eff heff
        simp [cancelDeployment] at heff
      · intro eff heff
        simp [cancelDeployment] at heff
        subst heff
        exact ⟨c, rfl, rfl⟩
  · rintro ⟨h1, h2⟩
    cases s
    · exact absurd rfl h1
    · exact absurd rfl h2
    all_goals simp [cancelDeployment]

/-- Witness for C6 at concrete inputs: a building deployment with a running
container is cancelled; a successful one is rejected unchanged. -/
theorem C6_cancel_witness :
    (cancelDeployment ⟨.building, some "c1", some 8000, none, none, none, none, []⟩ 9).2.1 =
      ⟨.cancelled, some "c1", some 8000, none, none, some 9, none,
       [("info", "Deployment cancelled by user")]⟩ ∧
    cancelDeployment ⟨.success, none, none, some 3, some 5, some 5, none, []⟩ 9 =
      (.error (.validation "Cannot cancel completed deployment"),
       ⟨.success, none, none, some 3, some 5, some 5, none, []⟩, []) :=
  ⟨((C6_cancel_guard ⟨.building, some "c1", some 8000, none, none, none, none, []⟩ 9).2.1
      (Or.inr rfl)).1,
   (C6_cancel_guard ⟨.success, none, none, some 3, some 5, some 5, none, []⟩ 9).2.2
      (by decide)⟩

/-- Searching an appended list tries the left part first. -/
theorem find?_append_or {α : Type} (l1 l2 : List α) (p : α → Bool) :
    (l1 ++ l2).find? p = (l1.find? p).or (l2.find? p) :=
  List.find?_append

/-- Taking and dropping while not '=' splits a list at its first '='. -/
theorem split_at_first_eq (l rest : List Char) (h : ∀ c ∈ l, c ≠ '=') :
    (l ++ '=' :: rest).takeWhile (· ≠ '=') = l ∧
    (l ++ '=' :: rest).dropWhile (· ≠ '=') = '=' :: rest := by
  induction l with
  | nil => constructor <;> simp
  | cons c cs ih =>
    have hc : c ≠ '=' := h c (List.mem_cons_self _ _)
    have ih2 := ih fun x hx => h x (List.mem_cons_of_mem _ hx)
    simp only [ne_eq, decide_not] at ih2
    constructor
    · simp [List.takeWhile_cons, hc, ih2.1]
    · simp [List.dropWhile_cons, hc, ih2.2]

/-- Parsing a rendered `KEY=value` entry recovers the pair when the key
contains no '='. -/
theorem parseEnvEntry_roundtrip (k v : String) (h : ∀ c ∈ k.data, c ≠ '=') :
    parseEnvEntry (k ++ "=" ++ v) = (k, v) := by
  have hdata : (k ++ "=" ++ v).data = k.data ++ '=' :: v.data := by
    rw [String.data_append, String.data_append]
    rw [List.append_assoc]
    rfl
  unfold parseEnvEntry
  rw [hdata, (split_at_first_eq k.data v.data h).1, (split_at_first_eq k.data v.data h).2]
  simp

/-- C8 (counterexample): a supplied variable named `NODE_ENV` does not
survive the round trip — the runtime marker `NODE_ENV=production` is
appended after it and wins, so the value taking effect in the container is
`production`, not the supplied one. -/
theorem C8_counterexample_node_env :
    effectiveEnv (containerEnv [("NODE_ENV", "development")]) "NODE_ENV" ≠
      some "development" ∧
    effectiveEnv (containerEnv [("NODE_ENV", "development")]) "NODE_ENV" =
      some "production" := by
  constructor
  · decide
  · decide

/-- Searching the reversed rendered entries for a key that occurs once
(record keys are distinct and free of '=') finds its rendered entry. -/
theorem find?_env_entry (k v : String) :
    ∀ l : List (String × String), (k, v) ∈ l →
      (l.map Prod.fst).Nodup →
      (∀ kv ∈ l, ∀ c ∈ kv.1.data, c ≠ '=') →
      ((l.map fun kv => kv.1 ++ "=" ++ kv.2).reverse.find?
        fun e => (parseEnvEntry e).1 == k) = some (k ++ "=" ++ v) := by
  intro l
  induction l with
  | nil => intro h; cases h
  | cons a rest ih =>
    intro hmem hnodup hnoeq
    have hna : ∀ c ∈ a.1.data, c ≠ '=' := hnoeq a (List.mem_cons_self _ _)
    rcases List.mem_cons.mp hmem with heq | hmem2
    · cases heq
      have hnotin : k ∉ rest.map Prod.fst := (List.nodup_cons.mp hnodup).1
      have hnone : ((rest.map fun kv => kv.1 ++ "=" ++ kv.2).reverse.find?
          fun e => (parseEnvEntry e).1 == k) = none := by
        rw [List.find?_eq_none]
        intro x hx
        obtain ⟨kv, hkv, hkvx⟩ := List.mem_map.mp (List.mem_reverse.mp hx)
        subst hkvx
        rw [parseEnvEntry_roundtrip kv.1 kv.2 (hnoeq kv (List.mem_cons_of_mem _ hkv))]
        simp only [beq_iff_eq]
        intro hkk
        exact hnotin (hkk ▸ List.mem_map_of_mem Prod.fst hkv)
      simp only [List.map_cons, List.reverse_cons, find?_append_or, hnone, Option.none_or,
        List.find?_singleton]
      rw [parseEnvEntry_roundtrip k v hna]
      simp
    · have ihres := ih hmem2 (List.nodup_cons.mp hnodup).2
        fun kv hkv => hnoeq kv (List.mem_cons_of_mem _ hkv)
      simp only [List.map_cons, List.reverse_cons, find?_append_or, ihres, Option.or_some]

/-- C8 (amended): every supplied variable whose name is not `NODE_ENV`
takes effect in the container unmodified (names are record keys: distinct
and free of '='), and the fixed marker makes `NODE_ENV` effective as
`production`; a supplied `NODE_ENV` is overridden by the marker. -/
theorem C8_amended_env_roundtrip (envVariables : List (String × String)) (k v : String)
    (hmem : (k, v) ∈ envVariables) (hk : k ≠ "NODE_ENV")
    (hnodup : (envVariables.map Prod.fst).Nodup)
    (hnoeq : ∀ kv ∈ envVariables, ∀ c ∈ kv.1.data, c ≠ '=') :
    effectiveEnv (containerEnv envVariables) k = some v ∧
    effectiveEnv (containerEnv envVariables) "NODE_ENV" = some "production" := by
  constructor
  · unfold effectiveEnv containerEnv
    rw [List.reverse_append]
    have hmarker : (([("NODE_ENV=production" : String)].reverse.find?
        fun e => (parseEnvEntry e).1 == k) = none) := by
      rw [List.find?_eq_none]
      intro x hx
      rcases List.mem_singleton.mp (List.mem_reverse.mp hx) with rfl
      simp only [beq_iff_eq]
      intro hkk
      exact hk (by rw [← hkk]; rfl)
    rw [show (["NODE_ENV=production"].reverse ++
        (envVariables.map fun kv => kv.1 ++ "=" ++ kv.2).reverse).find?
          (fun e => (parseEnvEntry e).1 == k) =
        (["NODE_ENV=production"].reverse.find? fun e => (parseEnvEntry e).1 == k).or
          ((envVariables.map fun kv => kv.1 ++ "=" ++ kv.2).reverse.find?
            fun e => (parseEnvEntry e).1 == k) from find?_append_or _ _ _]
    rw [hmarker, Option.none_or, find?_env_entry k v envVariables hmem hnodup hnoeq]
    simp [parseEnvEntry_roundtrip k v (hnoeq (k, v) hmem)]
  · unfold effectiveEnv containerEnv
    rw [List.reverse_append]
    rfl

/-- Witness for C8 (amended) at a concrete input. -/
theorem C8_env_roundtrip_witness :
    effectiveEnv (containerEnv [("APP_NAME", "demo")]) "APP_NAME" = some "demo" ∧
    effectiveEnv (containerEnv [("APP_NAME", "demo")]) "NODE_ENV" = some "production" :=
  C8_amended_env_roundtrip [("APP_NAME", "demo")] "APP_NAME" "demo"
    (by decide) (by decide) (by decide) (by decide)

/-- After a removal, the reference no longer resolves. -/
theorem inspect_remove_none (world : List (String × ContainerInfo)) (ref : String) :
    inspectContainer (removeContainer world ref) ref = none := by
  have h : ((world.filter fun kv => kv.1 != ref).find? fun kv => kv.1 == ref) = none := by
    rw [List.find?_eq_none]
    intro kv hkv
    have h2 := (List.mem_filter.mp hkv).2
    simp only [bne_iff_ne, ne_eq, decide_eq_true_eq] at h2
    simp [h2]
  unfold inspectContainer removeContainer
  rw [h]
  rfl

/-- Removing an unresolved reference changes nothing. -/
theorem remove_absent (world : List (String × ContainerInfo)) (ref : String)
    (h : inspectContainer world ref = none) : removeContainer world ref = world := by
  unfold inspectContainer at h
  have hfind : (world.find? fun kv => kv.1 == ref) = none := by
    rcases hf : world.find? fun kv => kv.1 == ref with _ | x
    · exact hf
    · rw [hf] at h; simp at h
  have hall := List.find?_eq_none.mp hfind
  unfold removeContainer
  apply List.filter_eq_self.mpr
  intro kv hkv
  have h3 := hall kv hkv
  simp only [beq_iff_eq] at h3
  simp [h3]

/-- C9: `stopContainer` never throws (the success flag is always true);
calling it on a nonexistent reference leaves the runtime state unchanged;
and an immediate second call after any first call is a no-op that also
succeeds, so the operation is idempotent. -/
theorem C9_stop_idempotent (world : List (String × ContainerInfo)) (ref : String) :
    (stopContainer world ref).2 = true ∧
    stopContainer (removeContainer world ref) ref = (removeContainer world ref, true) ∧
    stopContainer (stopContainer world ref).1 ref = ((stopContainer world ref).1, true) := by
  have key : ∀ w : List (String × ContainerInfo),
      stopContainer (removeContainer w ref) ref = (removeContainer w ref, true) := by
    intro w
    simp only [stopContainer, inspect_remove_none,
      remove_absent (removeContainer w ref) ref (inspect_remove_none w ref)]
  exact ⟨rfl, key world, key _⟩

/-- C10 (counterexample): cancellation makes the record terminal without
setting `durationSeconds` — the cancel `UPDATE` writes only the status and
`updated_at`. -/
theorem C10_counterexample_cancel_no_duration :
    (cancelDeployment ⟨.building, none, none, none, none, none, none, []⟩ 7).1 = .ok () ∧
    (cancelDeployment ⟨.building, none, none, none, none, none, none, []⟩ 7).2.1.status =
      .cancelled ∧
    (cancelDeployment ⟨.building, none, none, none, none, none, none, []⟩ 7).2.1.durationSeconds =
      none := by
  refine ⟨rfl, rfl, rfl⟩

/-- C10 (amended): the pipeline's terminal transitions do set the duration —
it always ends success or failed with `durationSeconds` populated by that
same update — while `cancelDeployment` never touches `durationSeconds`. -/
theorem C10_amended_duration_on_success_failed :
    (∀ (buildResult : Except String (String × String))
       (runResult : Except String (String × Nat)) (nginxOk : Bool)
       (durOk tOk durFail tFail : Nat),
       ((runOps initialRow (executeDeploymentOps buildResult runResult nginxOk
           durOk tOk durFail tFail)).status = .success ∧
        (runOps initialRow (executeDeploymentOps buildResult runResult nginxOk
           durOk tOk durFail tFail)).durationSeconds = some durOk) ∨
       ((runOps initialRow (executeDeploymentOps buildResult runResult nginxOk
           durOk tOk durFail tFail)).status = .failed ∧
        (runOps initialRow (executeDeploymentOps buildResult runResult nginxOk
           durOk tOk durFail tFail)).durationSeconds = some durFail)) ∧
    (∀ (r : DeploymentRow) (t : Nat),
       (cancelDeployment r t).2.1.durationSeconds = r.durationSeconds) := by
  constructor
  · intro buildResult runResult nginxOk durOk tOk durFail tFail
    rcases buildResult with e | ⟨imageName, framework⟩
    · right; exact ⟨rfl, rfl⟩
    · rcases runResult with e | ⟨cid, port⟩
      · right; exact ⟨rfl, rfl⟩
      · cases nginxOk
        · left; exact ⟨rfl, rfl⟩
        · left; exact ⟨rfl, rfl⟩
  · intro r t
    unfold cancelDeployment
    split
    · rfl
    · rfl

end Gilgal
